import Mathlib

/-!
Verification of the audio-to-video generation pipeline
(audio segmentation, Gemini segment analysis, Luma image/video generation).

Shallow embedding: time values are rationals, external HTTP/LLM calls are
oracle parameters, JS promise rejection is `Except`, and JS object fields
that may be `undefined` are `Option`.
-/

/-- JS truthiness of a possibly-undefined string: `undefined` and the empty
string are falsy, every other string is truthy. -/
def jsTruthy : Option String → Bool
  | none => false
  | some s => !s.isEmpty

/-- The JS expression `a || b` for a possibly-undefined string `a` and a
string fallback `b`. -/
def jsOr (a : Option String) (b : String) : String :=
  match a with
  | some s => if s.isEmpty then b else s
  | none => b

/-- The JS expression `a || b` on two possibly-undefined strings. -/
def jsOrOpt (a b : Option String) : Option String :=
  if jsTruthy a then a else b

namespace AudioAnalysis

/-- A time-windowed audio segment as produced by `splitAudioIntoSegments`
(the encoded WAV blob is opaque binary and is not modelled). -/
@[ext]
structure AudioSegment where
  startTime : ℚ
  endTime : ℚ
deriving Repr, DecidableEq

/-- The segmentation loop of `splitAudioIntoSegments`:
`for (let startTime = 0; startTime < totalDuration; startTime += segmentDuration)`
with `endTime = Math.min(startTime + segmentDuration, totalDuration)`.
The loop only terminates for a positive segment duration, hence the hypothesis. -/
def splitGo (totalDuration segmentDuration : ℚ) (hD : 0 < segmentDuration)
    (startTime : ℚ) : List AudioSegment :=
  if h : startTime < totalDuration then
    { startTime := startTime,
      endTime := min (startTime + segmentDuration) totalDuration } ::
      splitGo totalDuration segmentDuration hD (startTime + segmentDuration)
  else []
termination_by ⌈(totalDuration - startTime) / segmentDuration⌉₊
decreasing_by
  have hpos : 0 < (totalDuration - startTime) / segmentDuration :=
    div_pos (by linarith) hD
  have h1 : (totalDuration - (startTime + segmentDuration)) / segmentDuration
      = (totalDuration - startTime) / segmentDuration - 1 := by
    field_simp
    ring
  rw [h1]
  have h2 : ⌈(totalDuration - startTime) / segmentDuration⌉₊ ≠ 0 := by
    simp only [ne_eq, Nat.ceil_eq_zero, not_le]
    exact hpos
  have h3 : ⌈(totalDuration - startTime) / segmentDuration - 1⌉₊
      ≤ ⌈(totalDuration - startTime) / segmentDuration⌉₊ - 1 := by
    rw [Nat.ceil_le]
    have h4 := Nat.le_ceil ((totalDuration - startTime) / segmentDuration)
    have h5 : (1 : ℕ) ≤ ⌈(totalDuration - startTime) / segmentDuration⌉₊ :=
      Nat.one_le_iff_ne_zero.mpr h2
    push_cast [Nat.cast_sub h5]
    linarith
  omega

/-- `splitAudioIntoSegments(audioFile, segmentDuration)` from the audio
analysis module, abstracted over the decoded total duration of the file. -/
def splitAudioIntoSegments (totalDuration segmentDuration : ℚ)
    (hD : 0 < segmentDuration) : List AudioSegment :=
  splitGo totalDuration segmentDuration hD 0

/-- Segments are strictly ordered by start time. -/
def OrderedByStart (segs : List AudioSegment) : Prop :=
  ∀ i j (hi : i < segs.length) (hj : j < segs.length), i < j →
    (segs.get ⟨i, hi⟩).startTime < (segs.get ⟨j, hj⟩).startTime

/-- Adjacent segment windows meet exactly, with no gap in between. -/
def Contiguous (segs : List AudioSegment) : Prop :=
  ∀ i (hi : i + 1 < segs.length),
    (segs.get ⟨i, Nat.lt_of_succ_lt hi⟩).endTime = (segs.get ⟨i + 1, hi⟩).startTime

/-- An earlier segment ends no later than any later segment starts. -/
def NonOverlapping (segs : List AudioSegment) : Prop :=
  ∀ i j (hi : i < segs.length) (hj : j < segs.length), i < j →
    (segs.get ⟨i, hi⟩).endTime ≤ (segs.get ⟨j, hj⟩).startTime

/-- Every instant of the interval from 0 to T lies inside some segment window. -/
def Covers (segs : List AudioSegment) (T : ℚ) : Prop :=
  ∀ t : ℚ, 0 ≤ t → t < T → ∃ i, ∃ hi : i < segs.length,
    (segs.get ⟨i, hi⟩).startTime ≤ t ∧ t < (segs.get ⟨i, hi⟩).endTime

/-- Result record of analyzing one audio segment (audioAnalysis.ts). -/
structure SegmentAnalysis where
  startTime : ℚ
  endTime : ℚ
  story : String
  visual : String
  emotion : String
  imagePrompt : String
deriving Repr, DecidableEq

/-- The regex extraction `text.match(brace .. anything .. brace)`: the greedy
leftmost match spans from the first opening brace to the last closing brace,
provided that closing brace comes after the opening one; otherwise there is
no match. -/
def extractJsonSpan (text : String) : Option String :=
  let cs := text.toList
  match cs.findIdx? (fun c => c = '{') with
  | none => none
  | some i =>
    match cs.reverse.findIdx? (fun c => c = '}') with
    | none => none
    | some jr =>
      let j := cs.length - 1 - jr
      if i < j then some (String.mk ((cs.drop i).take (j - i + 1))) else none

/-- Projection of a JSON object parsed by JSON.parse onto the four fields the
analyzer reads; a missing field is none. -/
structure JsObject where
  story : Option String := none
  visual : Option String := none
  emotion : Option String := none
  imagePrompt : Option String := none
deriving Repr, DecidableEq

/-- External behavior visible to one run of analyzeAudioSegment:
the text of the first (descriptive-analysis) Gemini response, the platform
JSON.parse (none models a parse exception), and the second
(prompt-synthesis) Gemini call, which either throws or yields a response
text. A thrown JS value is `Option String`: the message of an Error, or
none for a non-Error value. -/
structure GeminiEnv where
  analysisText : String
  parseJson : String → Option JsObject
  promptCall : Except (Option String) String

/-- The message of the error rethrown by the catch block of
analyzeAudioSegment. -/
def analysisFailedMessage : String := "音楽の分析に失敗しました。もう一度お試しください。"

/-- `analyzeAudioSegment(segment)` from audioAnalysis.ts: extract a JSON
object from the first response and require the three fields story, visual,
emotion (JS-truthy), then run the prompt-synthesis call whose parsed
imagePrompt field (defaulted through the or-empty-object and or-empty-string
fallbacks) fills the result; every exception inside the try block is caught
and rethrown as the generic analysis error. -/
def analyzeAudioSegment (env : GeminiEnv) (segment : AudioSegment) :
    Except String SegmentAnalysis :=
  match extractJsonSpan env.analysisText with
  | none => .error analysisFailedMessage
  | some jsonText =>
    match env.parseJson jsonText with
    | none => .error analysisFailedMessage
    | some analysis =>
      if jsTruthy analysis.story && jsTruthy analysis.visual && jsTruthy analysis.emotion then
        match env.promptCall with
        | .error _ => .error analysisFailedMessage
        | .ok promptText =>
          match env.parseJson ((extractJsonSpan promptText).getD "\x7b\x7d") with
          | none => .error analysisFailedMessage
          | some promptJson =>
            .ok { startTime := segment.startTime, endTime := segment.endTime,
                  story := analysis.story.getD "", visual := analysis.visual.getD "",
                  emotion := analysis.emotion.getD "",
                  imagePrompt := jsOr promptJson.imagePrompt "" }
      else .error analysisFailedMessage

end AudioAnalysis

namespace LumaGeneration

/-- Job state union of a LumaResponse. -/
inductive LumaState
  | pending
  | processing
  | completed
  | failed
deriving Repr, DecidableEq

/-- The LumaResponse record returned to callers of the generation module. -/
structure LumaResponse where
  id : String
  state : LumaState
  imageUrl : Option String := none
  videoUrl : Option String := none
  failure_reason : Option String := none
deriving Repr, DecidableEq

/-- Parsed JSON body of a 2xx status response (the fields read by
pollGenerationStatus, with assets flattened). -/
structure StatusBody where
  id : String
  state : String
  assetsImage : Option String := none
  assetsVideo : Option String := none
  assetsVideoThumb : Option String := none
  failure_reason : Option String := none
deriving Repr, DecidableEq

/-- Parsed JSON body of a non-2xx response (the fields read by the error
branches). -/
structure ErrorBody where
  detail : Option String := none
  message : Option String := none
deriving Repr, DecidableEq

/-- Outcome of one fetch against the Luma endpoints: the fetch (or body
read) throws, or the response is non-2xx with an optionally parseable error
body plus its HTTP status line, or it is 2xx with a parsed body. -/
inductive FetchOutcome
  | transportError (message : Option String)
  | httpError (body : Option ErrorBody) (status : ℕ) (statusText : String)
  | ok (body : StatusBody)
deriving Repr, DecidableEq

/-- The special-cased upstream credit-exhaustion message. -/
def insufficientCreditsMessage : String :=
  "Luma APIのクレジットが不足しています。APIキーの利用枠を確認してください。"

/-- The fallback message built from the HTTP status line when the error body
is not parseable JSON. -/
def statusLineMessage (base : String) (status : ℕ) (statusText : String) : String :=
  base ++ " (" ++ toString status ++ ": " ++ statusText ++ ")"

/-- Error-reason extraction shared by all non-2xx branches: the
insufficient-credits detail wins, else detail, else message, else the
default; with an unparseable body, the default plus the HTTP status line. -/
def extractErrorMessage (defaultMessage : String) (body : Option ErrorBody)
    (status : ℕ) (statusText : String) : String :=
  match body with
  | none => statusLineMessage defaultMessage status statusText
  | some b =>
    if b.detail = some "Insufficient credits" then insufficientCreditsMessage
    else jsOr b.detail (jsOr b.message defaultMessage)

/-- maxAttempts of the polling loop. -/
def maxAttempts : ℕ := 30

/-- pollingInterval (milliseconds) between polling attempts. -/
def pollingInterval : ℕ := 2000

/-- The timeout error thrown when the polling ceiling is exhausted. -/
def timeoutMessage : String := "生成がタイムアウトしました"

/-- The while loop of pollGenerationStatus; fetchStatus gives the outcome of
the attempt-th status query. An Except.error is a thrown JS value. -/
def pollLoop (fetchStatus : ℕ → FetchOutcome) (id : String) (attempts : ℕ) :
    Except (Option String) LumaResponse :=
  if h : attempts < maxAttempts then
    match fetchStatus attempts with
    | .transportError m => .error m
    | .httpError body status statusText =>
      .ok { id := id, state := .failed,
            failure_reason := some (extractErrorMessage
              "生成状態の取得に失敗しました" body status statusText) }
    | .ok s =>
      if s.state = "completed" then
        .ok { id := s.id, state := .completed,
              imageUrl := jsOrOpt s.assetsVideoThumb s.assetsImage,
              videoUrl := s.assetsVideo }
      else if s.state = "failed" then
        .ok { id := s.id, state := .failed, failure_reason := s.failure_reason }
      else pollLoop fetchStatus id (attempts + 1)
  else .error (some timeoutMessage)
termination_by maxAttempts - attempts
decreasing_by omega

/-- `pollGenerationStatus(id)` from lumaGeneration.ts. -/
def pollGenerationStatus (fetchStatus : ℕ → FetchOutcome) (id : String) :
    Except (Option String) LumaResponse :=
  pollLoop fetchStatus id 0

/-- Options of a single image-generation request. -/
structure ImageGenerationOptions where
  prompt : String
  aspect_ratio : Option String := none
  model : Option String := none
deriving Repr, DecidableEq

/-- Outcome of the creation POST request of generateLumaImage or
generateLumaVideo. -/
inductive CreateOutcome
  | transportError (message : Option String)
  | httpError (body : Option ErrorBody) (status : ℕ) (statusText : String)
  | ok (generationId : String)
deriving Repr, DecidableEq

/-- Message used by the catch block for a thrown non-Error value. -/
def unknownErrorMessage : String := "不明なエラー"

/-- `generateLumaImage(options)` from lumaGeneration.ts: one creation
request, then polling; a non-2xx creation response becomes a failed-state
response locally, and everything thrown inside the try block (transport
errors and the polling timeout) is caught and returned as a failed-state
response as well. The request options affect only the request body, which
the creation oracle already abstracts. -/
def generateLumaImage (create : CreateOutcome) (fetchStatus : ℕ → FetchOutcome) :
    LumaResponse :=
  match create with
  | .transportError m =>
    { id := "unknown", state := .failed,
      failure_reason := some (m.getD unknownErrorMessage) }
  | .httpError body status statusText =>
    { id := "error", state := .failed,
      failure_reason := some (extractErrorMessage
        "画像生成リクエストに失敗しました" body status statusText) }
  | .ok generationId =>
    match pollGenerationStatus fetchStatus generationId with
    | .ok resp => resp
    | .error m =>
      { id := "unknown", state := .failed,
        failure_reason := some (m.getD unknownErrorMessage) }

/-- One keyframe reference of a video-generation request. -/
structure Keyframe where
  type : String
  url : String
  timing : Option ℚ := none
deriving Repr, DecidableEq

/-- Options of a video-generation request; keyframes is the
insertion-ordered record built by the caller. -/
structure VideoGenerationOptions where
  prompt : String
  keyframes : List (String × Keyframe)
  model : Option String := none
  audioUrl : Option String := none
deriving Repr, DecidableEq

/-- One slot of the array built by generateImagesInParallel. -/
structure GeneratedMedia where
  segmentIndex : ℕ
  startTime : ℚ
  endTime : ℚ
  imageResponse : LumaResponse
deriving Repr, DecidableEq

/-- batchSize of generateImagesInParallel. -/
def batchSize : ℕ := 3

/-- The GeneratedMedia built for the segment at absolute index k. -/
def mkMedia (generate : ℕ → ImageGenerationOptions → LumaResponse) (k : ℕ)
    (analysis : AudioAnalysis.SegmentAnalysis) : GeneratedMedia :=
  { segmentIndex := k,
    startTime := analysis.startTime,
    endTime := analysis.endTime,
    imageResponse := generate k
      { prompt := analysis.imagePrompt, aspect_ratio := some "16:9",
        model := some "ray-2" } }

/-- The batch loop of generateImagesInParallel:
`for (let i = 0; i < analyses.length; i += batchSize)` slices the next
batch, awaits all of its generations, and appends the batch results. The
generate parameter is the awaited result of generateLumaImage for one
segment; that function resolves on every failure, so the catch branch of
the loop body is unreachable and the failed placeholders it would build are
not modelled separately. -/
def parallelLoop (generate : ℕ → ImageGenerationOptions → LumaResponse)
    (analyses : List AudioAnalysis.SegmentAnalysis) (i : ℕ)
    (results : List GeneratedMedia) : List GeneratedMedia :=
  if h : i < analyses.length then
    parallelLoop generate analyses (i + batchSize)
      (results ++ ((analyses.drop i).take batchSize).mapIdx
        (fun index analysis => mkMedia generate (i + index) analysis))
  else results
termination_by analyses.length - i
decreasing_by simp only [batchSize]; omega

/-- `generateImagesInParallel(analyses, onProgress)` from lumaGeneration.ts:
the batch loop followed by the final re-sort on segmentIndex. -/
def generateImagesInParallel (generate : ℕ → ImageGenerationOptions → LumaResponse)
    (analyses : List AudioAnalysis.SegmentAnalysis) : List GeneratedMedia :=
  (parallelLoop generate analyses 0 []).mergeSort
    (fun a b => decide (a.segmentIndex ≤ b.segmentIndex))

/-- The successive slices `analyses.slice(i, i + batchSize)` submitted as
concurrent groups by the batch loop of generateImagesInParallel. -/
def batchSlices {α : Type} (analyses : List α) (i : ℕ) : List (List α) :=
  if h : i < analyses.length then
    ((analyses.drop i).take batchSize) :: batchSlices analyses (i + batchSize)
  else []
termination_by analyses.length - i
decreasing_by simp only [batchSize]; omega

end LumaGeneration

namespace LumaGeneration

/-- The filter predicate of createVideoFromImages: state completed and a
JS-truthy imageUrl. -/
def isSuccessfulImage (img : GeneratedMedia) : Bool :=
  img.imageResponse.state == .completed && jsTruthy img.imageResponse.imageUrl

/-- JS Math.round: round half toward positive infinity. -/
def jsRound (q : ℚ) : ℤ := ⌊q + 1 / 2⌋

/-- The degraded-quality console warning emitted when fewer than half of the
images succeeded. -/
def degradedWarning (successCount totalCount : ℕ) : String :=
  "警告: 生成された画像の"
    ++ toString (jsRound ((1 - (successCount : ℚ) / (totalCount : ℚ)) * 100))
    ++ "%が失敗しました。動画の品質が低下する可能性があります。"

/-- The keyframes record built by createVideoFromImages: one frame-index
entry per successful image whose url is (re-checked to be) JS-truthy, with
the segment start time as timing hint. -/
def mkKeyframes (imgs : List GeneratedMedia) : List (String × Keyframe) :=
  (imgs.mapIdx fun index img =>
    if jsTruthy img.imageResponse.imageUrl then
      some ("frame" ++ toString index,
        { type := "image",
          url := img.imageResponse.imageUrl.getD "",
          timing := some img.startTime })
    else none).reduceOption

/-- The error thrown when every image generation failed. -/
def noValidImagesMessage : String :=
  "有効な画像がありません。すべての画像生成に失敗しました。"

/-- The default overall prompt of createVideoFromImages. -/
def defaultVideoPrompt : String :=
  "Create a smooth video transition between these images, maintaining the visual style and atmosphere"

/-- `createVideoFromImages(generatedImages, audioUrl, overallPrompt)` from
lumaGeneration.ts: filter to the successful images, throw when none remain,
emit the degraded-quality warning when fewer than half succeeded, then
submit exactly one video job over the successful subset. The first
component collects the console warnings of the run; the video parameter is
the awaited result of generateLumaVideo. -/
def createVideoFromImages (video : VideoGenerationOptions → LumaResponse)
    (generatedImages : List GeneratedMedia)
    (audioUrl : Option String) (overallPrompt : Option String) :
    List String × Except (Option String) LumaResponse :=
  let successfulImages := generatedImages.filter isSuccessfulImage
  if successfulImages.length = 0 then
    ([], .error (some noValidImagesMessage))
  else
    let warnings :=
      if (successfulImages.length : ℚ) < (generatedImages.length : ℚ) * (1 / 2) then
        [degradedWarning successfulImages.length generatedImages.length]
      else []
    (warnings, .ok (video
      { prompt := jsOr overallPrompt defaultVideoPrompt,
        keyframes := mkKeyframes successfulImages,
        model := some "ray-2",
        audioUrl := audioUrl }))

end LumaGeneration

namespace ClientBundle

/-- Environment values that Vite statically inlines into the delivered
browser bundle: every import.meta.env.VITE_* reference in client code is
replaced by the literal value at build time. -/
structure ViteClientEnv where
  VITE_LUMA_API_KEY : String
deriving Repr, DecidableEq

/-- The headers of the creation request built by the browser-side
generateLumaImage in lumaGeneration.ts: an Authorization bearer header from
the bundle-embedded VITE_LUMA_API_KEY, plus the content type. -/
def lumaCreateRequestHeaders (env : ViteClientEnv) : List (String × String) :=
  [("Authorization", "Bearer " ++ env.VITE_LUMA_API_KEY),
   ("Content-Type", "application/json")]

end ClientBundle

namespace LumaGeneration

/-- A 2xx status response in a non-terminal (pending or processing) state. -/
def PendingOrProcessing (o : FetchOutcome) : Prop :=
  ∃ s, o = FetchOutcome.ok s ∧ (s.state = "pending" ∨ s.state = "processing")

/-- Sample segment analysis used to exercise the batch generator. -/
def sampleAnalysis (k : ℕ) : AudioAnalysis.SegmentAnalysis :=
  { startTime := 30 * (k : ℚ), endTime := 30 * ((k : ℚ) + 1),
    story := "s", visual := "v", emotion := "e", imagePrompt := "p" }

/-- Seven sample analyses. -/
def sampleAnalyses : List AudioAnalysis.SegmentAnalysis :=
  (List.range 7).map sampleAnalysis

/-- Sample generator whose call for segment 4 fails and all others succeed. -/
def sampleGenerate (k : ℕ) (o : ImageGenerationOptions) : LumaResponse :=
  if k = 4 then { id := "error-4", state := .failed, failure_reason := some "boom" }
  else { id := toString k, state := .completed, imageUrl := some "https://img" }

/-- Status oracle that reports processing forever. -/
def alwaysProcessing : ℕ → FetchOutcome :=
  fun _ => .ok { id := "gen-1", state := "processing" }

/-- A generated-media slot whose image generation succeeded. -/
def okMedia (k : ℕ) : GeneratedMedia :=
  { segmentIndex := k, startTime := (k : ℚ), endTime := (k : ℚ) + 1,
    imageResponse := { id := "ok", state := .completed, imageUrl := some "https://img" } }

/-- A generated-media slot whose image generation failed. -/
def badMedia (k : ℕ) : GeneratedMedia :=
  { segmentIndex := k, startTime := (k : ℚ), endTime := (k : ℚ) + 1,
    imageResponse := { id := "bad", state := .failed, failure_reason := some "err" } }

/-- Ten sample media slots with four successes and six failures. -/
def sampleMedias : List GeneratedMedia :=
  [okMedia 0, okMedia 1, okMedia 2, okMedia 3,
   badMedia 4, badMedia 5, badMedia 6, badMedia 7, badMedia 8, badMedia 9]

/-- A video submission oracle returning a fixed completed job. -/
def sampleVideo : VideoGenerationOptions → LumaResponse :=
  fun _ => { id := "video-1", state := .completed, videoUrl := some "https://video" }

end LumaGeneration

namespace AudioAnalysis

/-- Sample environment whose primary analysis succeeds and whose
prompt-synthesis call throws. -/
def throwingPromptEnv : GeminiEnv :=
  { analysisText := "x\x7bj\x7d",
    parseJson := fun _ => some { story := some "s", visual := some "v", emotion := some "e" },
    promptCall := .error (some "network down") }

/-- Sample environment whose primary response has no JSON object span. -/
def noJsonEnv : GeminiEnv :=
  { analysisText := "plain text only",
    parseJson := fun _ => none,
    promptCall := .ok "irrelevant" }

/-- Sample environment whose primary analysis succeeds and whose
prompt-synthesis response contains no JSON object span. -/
def emptyPromptEnv : GeminiEnv :=
  { analysisText := "x\x7bj\x7d",
    parseJson := fun s =>
      if s = "\x7b\x7d" then some {}
      else some { story := some "s", visual := some "v", emotion := some "e" },
    promptCall := .ok "no json in prompt response" }

/-- Sample audio segment. -/
def sampleSegment : AudioSegment := { startTime := 0, endTime := 30 }

end AudioAnalysis

namespace AudioAnalysis

lemma ceil_sub_one_eq {a : ℚ} {n : ℕ} (h : ⌈a⌉₊ = n + 1) : ⌈a - 1⌉₊ = n := by
  have hle : ⌈a - 1⌉₊ ≤ n := by
    rw [Nat.ceil_le]
    have := Nat.le_ceil a
    rw [h] at this
    push_cast at this ⊢
    linarith
  have hge : n ≤ ⌈a - 1⌉₊ := by
    by_contra hc
    push_neg at hc
    have h6 : ⌈a - 1⌉₊ + 1 ≤ n := by omega
    have h7 : a - 1 ≤ (⌈a - 1⌉₊ : ℚ) := Nat.le_ceil _
    have h8 : a ≤ (n : ℚ) := by
      have : ((⌈a - 1⌉₊ : ℕ) : ℚ) + 1 ≤ (n : ℚ) := by exact_mod_cast h6
      linarith
    have h9 : ⌈a⌉₊ ≤ n := Nat.ceil_le.mpr h8
    omega
  omega

/-- Closed form of the segmentation loop: starting at `s`, the loop emits
`⌈(T - s) / D⌉₊` segments whose i-th element spans
`[s + i·D, min (s + (i+1)·D) T)`. -/
lemma splitGo_eq_map (T D : ℚ) (hD : 0 < D) (s : ℚ) :
    splitGo T D hD s = (List.range ⌈(T - s) / D⌉₊).map
      (fun i => { startTime := s + i * D,
                  endTime := min (s + (i + 1 : ℕ) * D) T }) := by
  generalize hn : ⌈(T - s) / D⌉₊ = n
  induction n generalizing s with
  | zero =>
    have hns : ¬ s < T := by
      rw [Nat.ceil_eq_zero] at hn
      intro hlt
      have : 0 < (T - s) / D := div_pos (by linarith) hD
      linarith
    rw [splitGo, dif_neg hns]
    simp
  | succ n ih =>
    have hs : s < T := by
      by_contra hc
      push_neg at hc
      have : (T - s) / D ≤ 0 := div_nonpos_of_nonpos_of_nonneg (by linarith) hD.le
      have : ⌈(T - s) / D⌉₊ = 0 := Nat.ceil_eq_zero.mpr this
      omega
    have hrec : ⌈(T - (s + D)) / D⌉₊ = n := by
      have h1 : (T - (s + D)) / D = (T - s) / D - 1 := by
        field_simp
        ring
      rw [h1]
      exact ceil_sub_one_eq hn
    rw [splitGo, dif_pos hs, ih (s + D) hrec, List.range_succ_eq_map]
    simp only [List.map_cons, List.map_map]
    congr 1
    · simp only [AudioSegment.mk.injEq]
      refine ⟨by push_cast; ring, ?_⟩
      congr 1
      push_cast
      ring
    · refine List.map_congr_left fun i _ => ?_
      simp only [Function.comp_apply, AudioSegment.mk.injEq]
      refine ⟨by push_cast; ring, ?_⟩
      congr 1
      push_cast
      ring

lemma splitAudioIntoSegments_eq_map (T D : ℚ) (hD : 0 < D) :
    splitAudioIntoSegments T D hD = (List.range ⌈T / D⌉₊).map
      (fun i => { startTime := (i : ℚ) * D,
                  endTime := min (((i + 1 : ℕ) : ℚ) * D) T }) := by
  rw [splitAudioIntoSegments, splitGo_eq_map, sub_zero]
  refine List.map_congr_left fun i _ => ?_
  simp only [AudioSegment.mk.injEq]
  refine ⟨by push_cast; ring, ?_⟩
  congr 1
  push_cast
  ring

lemma splitAudio_length (T D : ℚ) (hD : 0 < D) :
    (splitAudioIntoSegments T D hD).length = ⌈T / D⌉₊ := by
  rw [splitAudioIntoSegments_eq_map]
  simp

lemma splitAudio_get (T D : ℚ) (hD : 0 < D) (i : ℕ)
    (hi : i < (splitAudioIntoSegments T D hD).length) :
    (splitAudioIntoSegments T D hD).get ⟨i, hi⟩ =
      { startTime := (i : ℚ) * D, endTime := min (((i : ℚ) + 1) * D) T } := by
  simp [splitAudioIntoSegments_eq_map]

lemma min_eq_left_of_succ_lt_ceil (T D : ℚ) (hD : 0 < D) {i : ℕ}
    (h : i + 1 < ⌈T / D⌉₊) : min (((i : ℚ) + 1) * D) T = ((i : ℚ) + 1) * D := by
  have h0 : (0 : ℚ) ≤ T / D ∨ T / D < 0 := le_or_lt 0 (T / D)
  have hceil : (⌈T / D⌉₊ : ℚ) < T / D + 1 := by
    rcases h0 with h0 | h0
    · exact Nat.ceil_lt_add_one h0
    · have : ⌈T / D⌉₊ = 0 := Nat.ceil_eq_zero.mpr h0.le
      omega
  have h1 : ((i : ℚ) + 1) ≤ (⌈T / D⌉₊ : ℚ) - 1 := by
    have : (i : ℕ) + 1 + 1 ≤ ⌈T / D⌉₊ := h
    have := Nat.cast_le (α := ℚ).mpr this
    push_cast at this
    linarith
  have h2 : ((i : ℚ) + 1) < T / D := by linarith
  have h3 : ((i : ℚ) + 1) * D < T := by
    rw [← lt_div_iff hD]
    exact h2
  exact min_eq_left h3.le

/-- C1: for a source of total duration T > 0 and segment duration D > 0,
`splitAudioIntoSegments` produces exactly `⌈T / D⌉` segments, ordered by
start time; every segment except possibly the last has length exactly D;
the last has length `T mod D` (or D when T is an exact multiple of D); and
the segment windows are contiguous, non-overlapping, and cover [0, T). -/
theorem C1_splitAudioIntoSegments_segmentation (T D : ℚ) (hT : 0 < T) (hD : 0 < D) :
    (splitAudioIntoSegments T D hD).length = ⌈T / D⌉₊ ∧
    OrderedByStart (splitAudioIntoSegments T D hD) ∧
    Contiguous (splitAudioIntoSegments T D hD) ∧
    NonOverlapping (splitAudioIntoSegments T D hD) ∧
    Covers (splitAudioIntoSegments T D hD) T ∧
    (∀ i (hi : i < (splitAudioIntoSegments T D hD).length),
      i + 1 < (splitAudioIntoSegments T D hD).length →
      ((splitAudioIntoSegments T D hD).get ⟨i, hi⟩).endTime
        - ((splitAudioIntoSegments T D hD).get ⟨i, hi⟩).startTime = D) ∧
    (∀ hl : (splitAudioIntoSegments T D hD).length - 1
        < (splitAudioIntoSegments T D hD).length,
      ((splitAudioIntoSegments T D hD).get
          ⟨(splitAudioIntoSegments T D hD).length - 1, hl⟩).endTime
        - ((splitAudioIntoSegments T D hD).get
          ⟨(splitAudioIntoSegments T D hD).length - 1, hl⟩).startTime
        = if T - D * ⌊T / D⌋ = 0 then D else T - D * ⌊T / D⌋) := by
  have hlen := splitAudio_length T D hD
  have hget := splitAudio_get T D hD
  have hTD : 0 < T / D := div_pos hT hD
  have hn1 : 1 ≤ ⌈T / D⌉₊ := Nat.one_le_iff_ne_zero.mpr (by
    simp only [ne_eq, Nat.ceil_eq_zero, not_le]
    exact hTD)
  refine ⟨hlen, ?_, ?_, ?_, ?_, ?_, ?_⟩
  · intro i j hi hj hij
    rw [hget i hi, hget j hj]
    have : (i : ℚ) < j := by exact_mod_cast hij
    have := mul_lt_mul_of_pos_right this hD
    simpa using this
  · intro i hi
    rw [hget i (Nat.lt_of_succ_lt hi), hget (i + 1) hi]
    have hi' : i + 1 < ⌈T / D⌉₊ := by rwa [hlen] at hi
    simp only
    rw [min_eq_left_of_succ_lt_ceil T D hD hi']
    push_cast
    ring
  · intro i j hi hj hij
    rw [hget i hi, hget j hj]
    simp only
    have h1 : ((i : ℚ) + 1) * D ≤ (j : ℚ) * D := by
      have : (i : ℚ) + 1 ≤ j := by exact_mod_cast hij
      exact mul_le_mul_of_nonneg_right this hD.le
    exact le_trans (min_le_left _ _) h1
  · intro t ht htT
    have hk0 : 0 ≤ ⌊t / D⌋ := Int.floor_nonneg.mpr (div_nonneg ht hD.le)
    have hcast : (((⌊t / D⌋).toNat : ℕ) : ℚ) = ((⌊t / D⌋ : ℤ) : ℚ) := by
      exact_mod_cast Int.toNat_of_nonneg hk0
    have hilen : (⌊t / D⌋).toNat < (splitAudioIntoSegments T D hD).length := by
      rw [hlen]
      have h1 : ((⌊t / D⌋ : ℚ)) ≤ t / D := Int.floor_le _
      have h2 : t / D < T / D := by gcongr
      have h3 : (T / D) ≤ (⌈T / D⌉₊ : ℚ) := Nat.le_ceil _
      have h4 : (((⌊t / D⌋).toNat : ℚ)) < (⌈T / D⌉₊ : ℚ) := by
        rw [hcast]
        linarith
      exact_mod_cast h4
    refine ⟨(⌊t / D⌋).toNat, hilen, ?_⟩
    rw [hget _ hilen]
    simp only
    constructor
    · have h1 : ((⌊t / D⌋ : ℚ)) ≤ t / D := Int.floor_le _
      have h2 : ((⌊t / D⌋ : ℚ)) * D ≤ t := by
        rw [← le_div_iff hD]
        exact h1
      rw [hcast]
      exact h2
    · have h1 : t / D < (⌊t / D⌋ : ℚ) + 1 := Int.lt_floor_add_one _
      have h2 : t < ((⌊t / D⌋ : ℚ) + 1) * D := by
        rw [← div_lt_iff hD]
        exact h1
      rw [hcast]
      exact lt_min h2 htT
  · intro i hi hsucc
    rw [hget i hi]
    have hi' : i + 1 < ⌈T / D⌉₊ := by rwa [hlen] at hsucc
    simp only
    rw [min_eq_left_of_succ_lt_ceil T D hD hi']
    ring
  · intro hl
    rw [hget _ hl]
    have hlast : (splitAudioIntoSegments T D hD).length - 1 = ⌈T / D⌉₊ - 1 := by
      rw [hlen]
    simp only [hlast]
    have hcast : ((⌈T / D⌉₊ - 1 : ℕ) : ℚ) = (⌈T / D⌉₊ : ℚ) - 1 := by
      push_cast [Nat.cast_sub hn1]
      ring
    have hTle : T ≤ (⌈T / D⌉₊ : ℚ) * D := by
      have := Nat.le_ceil (T / D)
      calc T = T / D * D := by field_simp
        _ ≤ (⌈T / D⌉₊ : ℚ) * D := mul_le_mul_of_nonneg_right this hD.le
    have hmin : min ((((⌈T / D⌉₊ - 1 : ℕ) : ℚ) + 1) * D) T = T := by
      rw [hcast]
      have : ((⌈T / D⌉₊ : ℚ) - 1 + 1) * D = (⌈T / D⌉₊ : ℚ) * D := by ring
      rw [this]
      exact min_eq_right hTle
    rw [hmin, hcast]
    rcases Int.fract_eq_zero_or_add_one_sub_ceil (T / D) with hfr | hfr
    · have hexact : T - D * (⌊T / D⌋ : ℚ) = 0 := by
        have h0 : (⌊T / D⌋ : ℚ) = T / D := by
          have h00 := Int.self_sub_fract (T / D)
          rw [hfr, sub_zero] at h00
          exact h00.symm
        rw [h0]
        field_simp
      rw [if_pos hexact]
      have hceq : (⌈T / D⌉₊ : ℚ) = T / D := by
        have h1 : (⌈T / D⌉₊ : ℚ) = ((⌈T / D⌉ : ℤ) : ℚ) :=
          natCast_ceil_eq_intCast_ceil hTD.le
        have h2 : (⌊T / D⌋ : ℚ) = T / D := by
          have h00 := Int.self_sub_fract (T / D)
          rw [hfr, sub_zero] at h00
          exact h00.symm
        have h3 : (⌈T / D⌉ : ℤ) = ⌊T / D⌋ := by
          have h4 := Int.ceil_intCast (α := ℚ) ⌊T / D⌋
          rw [h2] at h4
          exact h4
        rw [h1, h3, h2]
      rw [hceq]
      field_simp
    · have hne : T - D * (⌊T / D⌋ : ℚ) ≠ 0 := by
        have hd : T - D * (⌊T / D⌋ : ℚ) = D * Int.fract (T / D) := by
          rw [Int.fract]
          field_simp
        rw [hd]
        have hfr0 : Int.fract (T / D) ≠ 0 := by
          intro h0
          rw [h0] at hfr
          have : ((⌈T / D⌉ : ℤ) : ℚ) = T / D + 1 := by linarith
          have h1 : (T / D) ≤ ((⌈T / D⌉ : ℤ) : ℚ) - 1 + 1 := by linarith
          have h2 : ((⌈T / D⌉ : ℤ) : ℚ) - 1 < T / D := by
            have := Int.ceil_lt_add_one (T / D)
            linarith
          linarith
        exact mul_ne_zero hD.ne' hfr0
      rw [if_neg hne]
      have hceil : (⌈T / D⌉₊ : ℚ) = (⌊T / D⌋ : ℚ) + 1 := by
        have h1 : (⌈T / D⌉₊ : ℚ) = ((⌈T / D⌉ : ℤ) : ℚ) :=
          natCast_ceil_eq_intCast_ceil hTD.le
        have h2 : Int.fract (T / D) = T / D - (⌊T / D⌋ : ℚ) := rfl
        rw [h1]
        rw [h2] at hfr
        linarith
      rw [hceil]
      ring


end AudioAnalysis

namespace AudioAnalysis

/-- Witness for C1 at T = 7 and D = 3: three segments are produced. -/
theorem C1_splitAudioIntoSegments_segmentation_witness :
    (0 : ℚ) < 7 ∧ (0 : ℚ) < 3 ∧
      (splitAudioIntoSegments 7 3 (by norm_num)).length = 3 := by
  refine ⟨by norm_num, by norm_num, ?_⟩
  have h := (C1_splitAudioIntoSegments_segmentation 7 3 (by norm_num) (by norm_num)).1
  rw [h, Nat.ceil_eq_iff (by norm_num)]
  norm_num

/-- C4: when the primary analysis response contains no JSON object at all,
or its extracted JSON object lacks one of the fields story, visual or
emotion, analyzeAudioSegment fails with the analysis error and returns no
partial result. -/
theorem C4_analyzeAudioSegment_hard_fail (env : GeminiEnv) (segment : AudioSegment)
    (h : extractJsonSpan env.analysisText = none ∨
      ∃ jsonText obj, extractJsonSpan env.analysisText = some jsonText ∧
        env.parseJson jsonText = some obj ∧
        (obj.story = none ∨ obj.visual = none ∨ obj.emotion = none)) :
    analyzeAudioSegment env segment = .error analysisFailedMessage := by
  rcases h with h | ⟨jsonText, obj, hspan, hparse, hfield⟩
  · simp [analyzeAudioSegment, h]
  · rcases hfield with h | h | h <;>
      simp [analyzeAudioSegment, hspan, hparse, h, jsTruthy]

/-- Witness for C4: a primary response with no JSON object hard-fails. -/
theorem C4_analyzeAudioSegment_hard_fail_witness :
    analyzeAudioSegment noJsonEnv sampleSegment = .error analysisFailedMessage :=
  C4_analyzeAudioSegment_hard_fail noJsonEnv sampleSegment (Or.inl rfl)

lemma jsOr_empty_of_falsy {a : Option String} (h : jsTruthy a = false) :
    jsOr a "" = "" := by
  cases a with
  | none => rfl
  | some s =>
    simp [jsTruthy] at h
    simp [jsOr, h]

/-- C3 counterexample: the prompt-synthesis call sits inside the same try
block as the primary analysis, so when it throws, analyzeAudioSegment does
not return a degraded success: the whole analysis fails. -/
theorem C3_counterexample_prompt_throw_fails_analysis :
    analyzeAudioSegment throwingPromptEnv sampleSegment
      = .error analysisFailedMessage := rfl

/-- C3 amended: for a segment whose primary analysis succeeds, a
prompt-synthesis response that contains no JSON object span, or whose
extracted span parses to an object without a JS-truthy imagePrompt,
soft-fails to a successful analysis with an empty imagePrompt; but a
prompt-synthesis call that throws, or an extracted span on which JSON
parsing throws, fails the whole analysis with the analysis error. -/
theorem C3_analyzeAudioSegment_prompt_soft_fail (env : GeminiEnv)
    (segment : AudioSegment) (jsonText : String) (obj : JsObject)
    (hspan : extractJsonSpan env.analysisText = some jsonText)
    (hparse : env.parseJson jsonText = some obj)
    (hs : jsTruthy obj.story = true) (hv : jsTruthy obj.visual = true)
    (he : jsTruthy obj.emotion = true) :
    (∀ promptText pobj, env.promptCall = .ok promptText →
      extractJsonSpan promptText = none →
      env.parseJson "\x7b\x7d" = some pobj →
      jsTruthy pobj.imagePrompt = false →
      analyzeAudioSegment env segment = .ok
        { startTime := segment.startTime, endTime := segment.endTime,
          story := obj.story.getD "", visual := obj.visual.getD "",
          emotion := obj.emotion.getD "", imagePrompt := "" }) ∧
    (∀ promptText spanText pobj, env.promptCall = .ok promptText →
      extractJsonSpan promptText = some spanText →
      env.parseJson spanText = some pobj →
      jsTruthy pobj.imagePrompt = false →
      analyzeAudioSegment env segment = .ok
        { startTime := segment.startTime, endTime := segment.endTime,
          story := obj.story.getD "", visual := obj.visual.getD "",
          emotion := obj.emotion.getD "", imagePrompt := "" }) ∧
    (∀ e, env.promptCall = .error e →
      analyzeAudioSegment env segment = .error analysisFailedMessage) ∧
    (∀ promptText spanText, env.promptCall = .ok promptText →
      extractJsonSpan promptText = some spanText →
      env.parseJson spanText = none →
      analyzeAudioSegment env segment = .error analysisFailedMessage) := by
  refine ⟨?_, ?_, ?_, ?_⟩
  · intro promptText pobj hcall hnospan hdefault hfalsy
    simp [analyzeAudioSegment, hspan, hparse, hs, hv, he, hcall, hnospan,
      hdefault, jsOr_empty_of_falsy hfalsy]
  · intro promptText spanText pobj hcall hspan2 hparse2 hfalsy
    simp [analyzeAudioSegment, hspan, hparse, hs, hv, he, hcall, hspan2,
      hparse2, jsOr_empty_of_falsy hfalsy]
  · intro e hcall
    simp [analyzeAudioSegment, hspan, hparse, hs, hv, he, hcall]
  · intro promptText spanText hcall hspan2 hparse2
    simp [analyzeAudioSegment, hspan, hparse, hs, hv, he, hcall, hspan2, hparse2]

/-- Witness for the amended C3: a prompt response with no JSON span yields
a successful analysis with an empty imagePrompt. -/
theorem C3_analyzeAudioSegment_prompt_soft_fail_witness :
    analyzeAudioSegment emptyPromptEnv sampleSegment = .ok
      { startTime := 0, endTime := 30,
        story := "s", visual := "v", emotion := "e", imagePrompt := "" } :=
  (C3_analyzeAudioSegment_prompt_soft_fail emptyPromptEnv sampleSegment
      "\x7bj\x7d" { story := some "s", visual := some "v", emotion := some "e" }
      rfl rfl rfl rfl rfl).1
    "no json in prompt response" {} rfl rfl rfl rfl

end AudioAnalysis

namespace LumaGeneration

lemma append_ne_empty_left {s t : String} (h : s ≠ "") : s ++ t ≠ "" := by
  intro heq
  have hl := congrArg String.length heq
  rw [String.length_append, String.length_empty] at hl
  have h0 : s.length = 0 := by omega
  apply h
  cases s with
  | mk data =>
    cases data with
    | nil => rfl
    | cons c cs => simp [String.length] at h0

lemma jsOr_ne_empty {a : Option String} {b : String} (hb : b ≠ "") :
    jsOr a b ≠ "" := by
  cases a with
  | none => simpa [jsOr] using hb
  | some s =>
    simp only [jsOr]
    by_cases hs : s.isEmpty = true
    · rw [if_pos hs]
      exact hb
    · rw [if_neg hs]
      intro heq
      rw [heq] at hs
      exact hs rfl

lemma extractErrorMessage_ne_empty {d : String} (hd : d ≠ "")
    (body : Option ErrorBody) (status : ℕ) (statusText : String) :
    extractErrorMessage d body status statusText ≠ "" := by
  cases body with
  | none =>
    simp only [extractErrorMessage, statusLineMessage]
    apply append_ne_empty_left
    apply append_ne_empty_left
    apply append_ne_empty_left
    apply append_ne_empty_left
    apply append_ne_empty_left
    exact hd
  | some b =>
    simp only [extractErrorMessage]
    by_cases hc : b.detail = some "Insufficient credits"
    · rw [if_pos hc]
      decide
    · rw [if_neg hc]
      exact jsOr_ne_empty (jsOr_ne_empty hd)

lemma pollLoop_advance (fetchStatus : ℕ → FetchOutcome) (id : String) (k : ℕ) :
    ∀ a, a + k ≤ maxAttempts →
      (∀ j, a ≤ j → j < a + k → PendingOrProcessing (fetchStatus j)) →
      pollLoop fetchStatus id a = pollLoop fetchStatus id (a + k) := by
  induction k with
  | zero => intro a _ _; rfl
  | succ k ih =>
    intro a hle h
    obtain ⟨s, hs, hstate⟩ := h a le_rfl (by omega)
    have ha : a < maxAttempts := by omega
    have h1 : ¬ s.state = "completed" := by
      rcases hstate with h' | h' <;> rw [h'] <;> decide
    have h2 : ¬ s.state = "failed" := by
      rcases hstate with h' | h' <;> rw [h'] <;> decide
    rw [pollLoop, dif_pos ha, hs]
    simp only [if_neg h1, if_neg h2]
    have heq := ih (a + 1) (by omega) (fun j hj1 hj2 => h j (by omega) (by omega))
    rw [heq, show a + 1 + k = a + (k + 1) from by omega]

lemma pollGen_reach (fetchStatus : ℕ → FetchOutcome) (id : String) (k : ℕ)
    (hk : k ≤ maxAttempts)
    (h : ∀ j, j < k → PendingOrProcessing (fetchStatus j)) :
    pollGenerationStatus fetchStatus id = pollLoop fetchStatus id k := by
  rw [pollGenerationStatus]
  have := pollLoop_advance fetchStatus id k 0 (by omega) (fun j h1 h2 => h j (by omega))
  simpa using this

lemma pollLoop_completed (fetchStatus : ℕ → FetchOutcome) (id : String) (a : ℕ)
    (s : StatusBody) (ha : a < maxAttempts) (hs : fetchStatus a = .ok s)
    (hc : s.state = "completed") :
    pollLoop fetchStatus id a = .ok
      { id := s.id, state := .completed,
        imageUrl := jsOrOpt s.assetsVideoThumb s.assetsImage,
        videoUrl := s.assetsVideo } := by
  rw [pollLoop, dif_pos ha, hs]
  simp [hc]

lemma pollLoop_failed (fetchStatus : ℕ → FetchOutcome) (id : String) (a : ℕ)
    (s : StatusBody) (ha : a < maxAttempts) (hs : fetchStatus a = .ok s)
    (hc : s.state = "failed") :
    pollLoop fetchStatus id a = .ok
      { id := s.id, state := .failed, failure_reason := s.failure_reason } := by
  rw [pollLoop, dif_pos ha, hs]
  simp [hc]

lemma pollLoop_timeout (fetchStatus : ℕ → FetchOutcome) (id : String)
    (h : ∀ k, k < maxAttempts → PendingOrProcessing (fetchStatus k)) :
    pollGenerationStatus fetchStatus id = .error (some timeoutMessage) := by
  rw [pollGen_reach fetchStatus id maxAttempts le_rfl (fun j hj => h j hj)]
  rw [pollLoop, dif_neg (by omega)]

lemma pollLoop_congr (f f2 : ℕ → FetchOutcome) (id : String)
    (h : ∀ k, k < maxAttempts → f2 k = f k) :
    ∀ m a, maxAttempts - a ≤ m → pollLoop f2 id a = pollLoop f id a := by
  intro m
  induction m with
  | zero =>
    intro a ha
    have hna : ¬ a < maxAttempts := by omega
    rw [pollLoop, dif_neg hna, pollLoop, dif_neg hna]
  | succ m ih =>
    intro a ha
    by_cases hlt : a < maxAttempts
    · conv_lhs => rw [pollLoop]
      conv_rhs => rw [pollLoop]
      rw [dif_pos hlt, dif_pos hlt, h a hlt]
      cases hfa : f a with
      | transportError msg => rfl
      | httpError b st stt => rfl
      | ok s =>
        by_cases hc : s.state = "completed"
        · simp [hc]
        · by_cases hf : s.state = "failed"
          · simp [hc, hf]
          · simp only [if_neg hc, if_neg hf]
            exact ih (a + 1) (by omega)
    · rw [pollLoop, dif_neg hlt, pollLoop, dif_neg hlt]

/-- C5: pollGenerationStatus polls at a fixed 2000 ms interval for at most
30 attempts: a completed status returns the job with its asset URLs
populated, a failed status returns immediately with the failure reason, 30
consecutive pending-or-processing statuses end in the timeout error, and
the outcome never depends on the status oracle beyond the first 30
attempts. -/
theorem C5_pollGenerationStatus_bounded (fetchStatus : ℕ → FetchOutcome)
    (id : String) :
    (maxAttempts = 30 ∧ pollingInterval = 2000) ∧
    (∀ k s, k < maxAttempts →
      (∀ j, j < k → PendingOrProcessing (fetchStatus j)) →
      fetchStatus k = .ok s → s.state = "completed" →
      pollGenerationStatus fetchStatus id = .ok
        { id := s.id, state := .completed,
          imageUrl := jsOrOpt s.assetsVideoThumb s.assetsImage,
          videoUrl := s.assetsVideo }) ∧
    (∀ k s, k < maxAttempts →
      (∀ j, j < k → PendingOrProcessing (fetchStatus j)) →
      fetchStatus k = .ok s → s.state = "failed" →
      pollGenerationStatus fetchStatus id = .ok
        { id := s.id, state := .failed, failure_reason := s.failure_reason }) ∧
    ((∀ k, k < maxAttempts → PendingOrProcessing (fetchStatus k)) →
      pollGenerationStatus fetchStatus id = .error (some timeoutMessage)) ∧
    (∀ fetchStatus2, (∀ k, k < maxAttempts → fetchStatus2 k = fetchStatus k) →
      pollGenerationStatus fetchStatus2 id = pollGenerationStatus fetchStatus id) := by
  refine ⟨⟨rfl, rfl⟩, ?_, ?_, ?_, ?_⟩
  · intro k s hk h hfetch hstate
    rw [pollGen_reach fetchStatus id k hk.le h]
    exact pollLoop_completed fetchStatus id k s hk hfetch hstate
  · intro k s hk h hfetch hstate
    rw [pollGen_reach fetchStatus id k hk.le h]
    exact pollLoop_failed fetchStatus id k s hk hfetch hstate
  · exact pollLoop_timeout fetchStatus id
  · intro fetchStatus2 h
    rw [pollGenerationStatus, pollGenerationStatus]
    exact pollLoop_congr fetchStatus fetchStatus2 id h maxAttempts 0 (by omega)

/-- Witness for C5: an always-processing oracle exhausts the 30 attempts
and yields the timeout error. -/
theorem C5_pollGenerationStatus_bounded_witness :
    pollGenerationStatus alwaysProcessing "gen-1" = .error (some timeoutMessage) :=
  (C5_pollGenerationStatus_bounded alwaysProcessing "gen-1").2.2.2.1
    (fun _ _ => ⟨{ id := "gen-1", state := "processing" }, rfl, Or.inr rfl⟩)

/-- C6: on a non-success HTTP status of the creation request,
generateLumaImage returns (does not throw) a failed-state job whose reason
is the most specific available: the insufficient-credits message when the
detail field equals Insufficient credits, else the detail or message field,
else a generic message carrying the HTTP status line; a transport-level
exception is converted by the surrounding catch to the same failed-state
shape. -/
theorem C6_generateLumaImage_http_error_mapping (body : Option ErrorBody)
    (status : ℕ) (statusText : String) (fetchStatus : ℕ → FetchOutcome) :
    ((generateLumaImage (.httpError body status statusText) fetchStatus).state
      = LumaState.failed) ∧
    (∀ b, body = some b → b.detail = some "Insufficient credits" →
      (generateLumaImage (.httpError body status statusText) fetchStatus).failure_reason
        = some insufficientCreditsMessage) ∧
    (∀ b, body = some b → b.detail ≠ some "Insufficient credits" →
      (generateLumaImage (.httpError body status statusText) fetchStatus).failure_reason
        = some (jsOr b.detail (jsOr b.message "画像生成リクエストに失敗しました"))) ∧
    (body = none →
      (generateLumaImage (.httpError body status statusText) fetchStatus).failure_reason
        = some ("画像生成リクエストに失敗しました" ++ " (" ++ toString status ++ ": "
            ++ statusText ++ ")")) ∧
    (∀ msg, generateLumaImage (.transportError msg) fetchStatus
        = { id := "unknown", state := .failed,
            failure_reason := some (msg.getD unknownErrorMessage) }) := by
  refine ⟨rfl, ?_, ?_, ?_, fun msg => rfl⟩
  · intro b hb hdetail
    subst hb
    simp [generateLumaImage, extractErrorMessage, hdetail]
  · intro b hb hdetail
    subst hb
    simp [generateLumaImage, extractErrorMessage, hdetail]
  · intro hb
    subst hb
    simp [generateLumaImage, extractErrorMessage, statusLineMessage]

end LumaGeneration

namespace LumaGeneration

/-- Witness for C6: an insufficient-credits rejection is mapped to the
dedicated credits message on a failed-state result. -/
theorem C6_generateLumaImage_http_error_mapping_witness :
    (generateLumaImage
        (.httpError (some { detail := some "Insufficient credits" })
          402 "Payment Required") alwaysProcessing).failure_reason
      = some insufficientCreditsMessage :=
  (C6_generateLumaImage_http_error_mapping
      (some { detail := some "Insufficient credits" }) 402 "Payment Required"
      alwaysProcessing).2.1
    { detail := some "Insufficient credits" } rfl rfl

/-- C10 counterexample: an upstream-declared job failure with an absent
failure_reason is passed through verbatim, and a transport error whose
Error has an empty message yields an empty reason, so the failure_reason is
not non-empty on every failure path. -/
theorem C10_counterexample_empty_failure_reason :
    (generateLumaImage (.ok "gen-1")
        (fun _ => .ok { id := "gen-1", state := "failed" })).failure_reason = none ∧
    (generateLumaImage (.transportError (some "")) alwaysProcessing).failure_reason
      = some "" := by
  constructor
  · simp [generateLumaImage, pollGenerationStatus, pollLoop, maxAttempts]
  · rfl

/-- C10 amended: generateLumaImage never throws: every failure path comes
back as a failed-state LumaResponse. The locally synthesized reasons
(non-success creation response, poll timeout) are non-empty; a transport
error carries the thrown message verbatim (or the generic unknown-error
message for a non-Error value), and an upstream-declared job failure passes
the upstream failure_reason through verbatim, possibly absent or empty. In
particular the poll timeout reaches the caller as a failed-state result,
not as an exception. -/
theorem C10_generateLumaImage_failures_as_results
    (create : CreateOutcome) (fetchStatus : ℕ → FetchOutcome) :
    (∀ body status statusText, create = .httpError body status statusText →
      (generateLumaImage create fetchStatus).state = LumaState.failed ∧
      ∃ r, (generateLumaImage create fetchStatus).failure_reason = some r ∧
        r ≠ "") ∧
    (∀ msg, create = .transportError msg →
      generateLumaImage create fetchStatus
        = { id := "unknown", state := .failed,
            failure_reason := some (msg.getD unknownErrorMessage) }) ∧
    (∀ generationId, create = .ok generationId →
      (∀ k, k < maxAttempts → PendingOrProcessing (fetchStatus k)) →
      generateLumaImage create fetchStatus
        = { id := "unknown", state := .failed,
            failure_reason := some timeoutMessage } ∧ timeoutMessage ≠ "") ∧
    (∀ generationId k s, create = .ok generationId → k < maxAttempts →
      (∀ j, j < k → PendingOrProcessing (fetchStatus j)) →
      fetchStatus k = .ok s → s.state = "failed" →
      generateLumaImage create fetchStatus
        = { id := s.id, state := .failed,
            failure_reason := s.failure_reason }) := by
  refine ⟨?_, ?_, ?_, ?_⟩
  · intro body status statusText hcreate
    subst hcreate
    exact ⟨rfl,
      extractErrorMessage "画像生成リクエストに失敗しました" body status statusText,
      rfl, extractErrorMessage_ne_empty (by decide) body status statusText⟩
  · intro msg hcreate
    subst hcreate
    rfl
  · intro generationId hcreate h
    subst hcreate
    refine ⟨?_, by decide⟩
    have hp := pollLoop_timeout fetchStatus generationId h
    simp [generateLumaImage, hp]
  · intro generationId k s hcreate hk h hfetch hstate
    subst hcreate
    have h1 := pollGen_reach fetchStatus generationId k hk.le h
    have h2 := pollLoop_failed fetchStatus generationId k s hk hfetch hstate
    simp [generateLumaImage, h1, h2]

/-- Witness for the amended C10: an always-processing oracle makes the
whole image generation come back as a failed-state result carrying the
timeout message. -/
theorem C10_generateLumaImage_failures_as_results_witness :
    generateLumaImage (.ok "gen-1") alwaysProcessing
      = { id := "unknown", state := .failed,
          failure_reason := some timeoutMessage } :=
  ((C10_generateLumaImage_failures_as_results (.ok "gen-1") alwaysProcessing).2.2.1
      "gen-1" rfl
      (fun _ _ => ⟨{ id := "gen-1", state := "processing" }, rfl, Or.inr rfl⟩)).1

end LumaGeneration

namespace LumaGeneration

lemma mapIdx_take_drop {α β : Type} (f : ℕ → α → β) (l : List α) (n : ℕ) :
    l.mapIdx f = (l.take n).mapIdx f
      ++ (l.drop n).mapIdx (fun k => f (k + (l.take n).length)) := by
  conv_lhs => rw [← List.take_append_drop n l]
  rw [List.mapIdx_append]

lemma parallelLoop_eq (generate : ℕ → ImageGenerationOptions → LumaResponse)
    (analyses : List AudioAnalysis.SegmentAnalysis) :
    ∀ m i results, analyses.length - i ≤ m →
      parallelLoop generate analyses i results
        = results ++ (analyses.drop i).mapIdx
            (fun k => mkMedia generate (i + k)) := by
  intro m
  induction m with
  | zero =>
    intro i results h
    have hle : analyses.length ≤ i := by omega
    rw [parallelLoop, dif_neg (by omega), List.drop_eq_nil_of_le hle]
    simp
  | succ m ih =>
    intro i results h
    by_cases hi : i < analyses.length
    · rw [parallelLoop, dif_pos hi,
        ih (i + batchSize) _ (by simp only [batchSize]; omega),
        List.append_assoc]
      congr 1
      rw [mapIdx_take_drop (fun k => mkMedia generate (i + k))
        (analyses.drop i) batchSize]
      congr 1
      have hdd : (analyses.drop i).drop batchSize = analyses.drop (i + batchSize) := by
        rw [List.drop_drop]
      rw [hdd]
      by_cases h3 : batchSize ≤ (analyses.drop i).length
      · have hlen3 : ((analyses.drop i).take batchSize).length = batchSize := by
          rw [List.length_take]
          exact min_eq_left h3
        rw [hlen3]
        congr 1
        funext k
        rw [show i + batchSize + k = i + (k + batchSize) from by omega]
      · push_neg at h3
        have hnil : analyses.drop (i + batchSize) = [] := by
          apply List.drop_eq_nil_of_le
          rw [List.length_drop] at h3
          omega
        rw [hnil]
        simp
    · rw [parallelLoop, dif_neg hi, List.drop_eq_nil_of_le (by omega)]
      simp

lemma parallelLoop_closed (generate : ℕ → ImageGenerationOptions → LumaResponse)
    (analyses : List AudioAnalysis.SegmentAnalysis) :
    parallelLoop generate analyses 0 []
      = analyses.mapIdx (fun k => mkMedia generate k) := by
  have h := parallelLoop_eq generate analyses analyses.length 0 [] (by omega)
  simpa using h

lemma generateImagesInParallel_eq (generate : ℕ → ImageGenerationOptions → LumaResponse)
    (analyses : List AudioAnalysis.SegmentAnalysis) :
    generateImagesInParallel generate analyses
      = analyses.mapIdx (fun k => mkMedia generate k) := by
  rw [generateImagesInParallel, parallelLoop_closed]
  apply List.mergeSort_of_sorted
  rw [List.pairwise_iff_getElem]
  intro i j hi hj hij
  simp only [List.getElem_mapIdx, mkMedia]
  simp only [decide_eq_true_eq]
  omega

end LumaGeneration

namespace LumaGeneration

lemma batchSlices_seven (analyses : List AudioAnalysis.SegmentAnalysis)
    (hlen : analyses.length = 7) :
    (batchSlices analyses 0).map List.length = [3, 3, 1] := by
  rw [batchSlices, dif_pos (by omega)]
  rw [batchSlices, dif_pos (show 0 + batchSize < analyses.length by
    simp only [batchSize]; omega)]
  rw [batchSlices, dif_pos (show 0 + batchSize + batchSize < analyses.length by
    simp only [batchSize]; omega)]
  rw [batchSlices, dif_neg (show ¬ 0 + batchSize + batchSize + batchSize
      < analyses.length by simp only [batchSize]; omega)]
  simp [batchSize, List.length_take, List.length_drop, hlen]

/-- C2: with 7 analyses and batch size 3, the batch loop takes slices of
sizes 3, 3 and 1, awaiting every job of one slice before the next slice is
taken; when the generation for segment 4 fails and every other segment
succeeds, the returned array still has exactly 7 entries, sorted in
ascending segmentIndex order matching the input order, with entry 4 in
failed state and all others completed. -/
theorem C2_generateImagesInParallel_batching
    (generate : ℕ → ImageGenerationOptions → LumaResponse)
    (analyses : List AudioAnalysis.SegmentAnalysis)
    (hlen : analyses.length = 7)
    (hfail : ∀ opts, (generate 4 opts).state = LumaState.failed)
    (hok : ∀ k opts, k ≠ 4 → (generate k opts).state = LumaState.completed) :
    (batchSlices analyses 0).map List.length = [3, 3, 1] ∧
    (generateImagesInParallel generate analyses).length = 7 ∧
    (∀ k (hk : k < (generateImagesInParallel generate analyses).length),
      ((generateImagesInParallel generate analyses).get ⟨k, hk⟩).segmentIndex = k) ∧
    (∀ k (hk : k < (generateImagesInParallel generate analyses).length)
      (hk2 : k < analyses.length),
      ((generateImagesInParallel generate analyses).get ⟨k, hk⟩).startTime
          = (analyses.get ⟨k, hk2⟩).startTime ∧
      ((generateImagesInParallel generate analyses).get ⟨k, hk⟩).endTime
          = (analyses.get ⟨k, hk2⟩).endTime) ∧
    (∀ k (hk : k < (generateImagesInParallel generate analyses).length),
      ((generateImagesInParallel generate analyses).get ⟨k, hk⟩).imageResponse.state
        = if k = 4 then LumaState.failed else LumaState.completed) := by
  have he := generateImagesInParallel_eq generate analyses
  refine ⟨batchSlices_seven analyses hlen, ?_, ?_, ?_, ?_⟩
  · rw [he]
    simp [hlen]
  · intro k hk
    simp only [he, List.get_eq_getElem, List.getElem_mapIdx, mkMedia]
  · intro k hk hk2
    constructor <;>
      simp only [he, List.get_eq_getElem, List.getElem_mapIdx, mkMedia]
  · intro k hk
    by_cases hk4 : k = 4
    · subst hk4
      simp only [he, List.get_eq_getElem, List.getElem_mapIdx, mkMedia, if_pos]
      exact hfail _
    · simp only [he, List.get_eq_getElem, List.getElem_mapIdx, mkMedia,
        if_neg hk4]
      exact hok k _ hk4

/-- Witness for C2 on the seven sample analyses with the sample generator
failing exactly at segment 4. -/
theorem C2_generateImagesInParallel_batching_witness :
    (batchSlices sampleAnalyses 0).map List.length = [3, 3, 1] ∧
    (generateImagesInParallel sampleGenerate sampleAnalyses).length = 7 := by
  have h := C2_generateImagesInParallel_batching sampleGenerate sampleAnalyses
    rfl (fun _ => rfl) (fun k opts hk => by simp [sampleGenerate, hk])
  exact ⟨h.1, h.2.1⟩

end LumaGeneration

namespace LumaGeneration

/-- C7: when no generated image is in completed state with a populated
image URL, createVideoFromImages throws instead of submitting a video job;
with at least one such image it submits exactly one video job built from
only the successful subset. -/
theorem C7_createVideoFromImages_requires_success
    (video : VideoGenerationOptions → LumaResponse)
    (generatedImages : List GeneratedMedia)
    (audioUrl overallPrompt : Option String) :
    ((∀ img ∈ generatedImages, ¬ isSuccessfulImage img = true) →
      (createVideoFromImages video generatedImages audioUrl overallPrompt).2
        = .error (some noValidImagesMessage)) ∧
    ((∃ img ∈ generatedImages, isSuccessfulImage img = true) →
      (createVideoFromImages video generatedImages audioUrl overallPrompt).2
        = .ok (video
          { prompt := jsOr overallPrompt defaultVideoPrompt,
            keyframes := mkKeyframes (generatedImages.filter isSuccessfulImage),
            model := some "ray-2",
            audioUrl := audioUrl })) := by
  constructor
  · intro h
    have hnil : generatedImages.filter isSuccessfulImage = [] :=
      List.filter_eq_nil_iff.mpr h
    simp [createVideoFromImages, hnil]
  · intro h
    obtain ⟨img, hmem, himg⟩ := h
    have hne : generatedImages.filter isSuccessfulImage ≠ [] := by
      intro hnil
      rw [List.filter_eq_nil_iff] at hnil
      exact hnil img hmem himg
    have hlen : ¬ (generatedImages.filter isSuccessfulImage).length = 0 := by
      simpa [List.length_eq_zero] using hne
    simp [createVideoFromImages, hlen]

/-- Witness for C7: an all-failed input makes video assembly throw. -/
theorem C7_createVideoFromImages_requires_success_witness :
    (createVideoFromImages sampleVideo [badMedia 0, badMedia 1] none none).2
      = .error (some noValidImagesMessage) :=
  (C7_createVideoFromImages_requires_success sampleVideo [badMedia 0, badMedia 1]
    none none).1 (by decide)

/-- C8: when at least one image succeeded but more than half of the images
failed, createVideoFromImages still submits the video job and also emits
the degraded-quality warning, observable in the warning channel of the
run. -/
theorem C8_createVideoFromImages_degraded_warning
    (video : VideoGenerationOptions → LumaResponse)
    (generatedImages : List GeneratedMedia)
    (audioUrl overallPrompt : Option String)
    (h1 : 0 < (generatedImages.filter isSuccessfulImage).length)
    (h2 : 2 * (generatedImages.filter isSuccessfulImage).length
      < generatedImages.length) :
    (createVideoFromImages video generatedImages audioUrl overallPrompt).1
      = [degradedWarning (generatedImages.filter isSuccessfulImage).length
          generatedImages.length] ∧
    (createVideoFromImages video generatedImages audioUrl overallPrompt).2
      = .ok (video
        { prompt := jsOr overallPrompt defaultVideoPrompt,
          keyframes := mkKeyframes (generatedImages.filter isSuccessfulImage),
          model := some "ray-2",
          audioUrl := audioUrl }) := by
  have hlen0 : ¬ (generatedImages.filter isSuccessfulImage).length = 0 := by
    omega
  have hhalf : ((generatedImages.filter isSuccessfulImage).length : ℚ)
      < (generatedImages.length : ℚ) * (1 / 2) := by
    have hc : ((2 * (generatedImages.filter isSuccessfulImage).length : ℕ) : ℚ)
        < ((generatedImages.length : ℕ) : ℚ) := by exact_mod_cast h2
    push_cast at hc
    linarith
  constructor
  · simp [createVideoFromImages, hlen0, hhalf]
    linarith [hhalf]
  · simp [createVideoFromImages, hlen0]

/-- Witness for C8 on ten sample media with four successes: the video is
still submitted and the degraded-quality warning is emitted. -/
theorem C8_createVideoFromImages_degraded_warning_witness :
    (createVideoFromImages sampleVideo sampleMedias none none).1
      = [degradedWarning (sampleMedias.filter isSuccessfulImage).length
          sampleMedias.length] :=
  (C8_createVideoFromImages_degraded_warning sampleVideo sampleMedias none none
    (by decide) (by decide)).1

end LumaGeneration

namespace ClientBundle

/-- C9: the claim fails on the code: the creation request built by the
browser-side generateLumaImage itself carries a bearer credential taken
from the bundle-embedded VITE_LUMA_API_KEY value, so with any configured
key the secret is embedded in client-delivered code instead of being
attached only by the relay. -/
theorem C9_browser_request_carries_bearer_key :
    ("Authorization", "Bearer sk-luma-secret")
      ∈ lumaCreateRequestHeaders { VITE_LUMA_API_KEY := "sk-luma-secret" } := by
  decide

end ClientBundle
